/-
Verification of the rain BitTorrent client sources against their
natural-language specification.

The development shallowly embeds three source files:
  * the webseed piece-result handler of the per-torrent coordinator
    (torrent package, handleWebseedPieceResult),
  * the early peer-wire code (rain package: handshake send/read,
    inbound serve and outbound connect),
  * the session add path (torrent package: AddTorrent / addMagnet / add).

Machine bytes are modelled as Nat values below 256; fallible calls of
external collaborators (metainfo decoding, magnet parsing, port
allocator, uuid generation, storage creation, resume-store writes) are
supplied through an explicit environment of Except results.
-/
import Mathlib

/-! ## Webseed piece-result handler (torrent.handleWebseedPieceResult) -/

/-- Per-piece coordinator state. The source piece struct carries more
fields (hash, block layout); the handler only reads and writes the
Writing flag, so only that field is embedded. -/
structure PieceSt where
  writing : Bool
deriving DecidableEq, Repr

/-- Embedding of urldownloader.PieceResult: the message a webseed
downloader sends to the coordinator loop. Downloader is stood for by
its URL; Buffer by its byte payload. -/
structure WebseedPieceResult where
  index : Nat
  error : Option String
  bufferData : List Nat
  url : String
deriving DecidableEq, Repr

/-- The coordinator-owned per-torrent state touched by the handler.
speedUpdates logs downloadSpeed.Update calls; spawnedWriters logs the
piece indexes for which a piecewriter goroutine was started;
webseedDisabled is bookkeeping modelled from the spec for webseed
sources put into backoff (the handler in the source never touches it). -/
structure TorrentState where
  pieces : List PieceSt
  bytesDownloaded : Int
  speedUpdates : List Nat
  pieceMessagesSuspended : Bool
  webseedResultsSuspended : Bool
  spawnedWriters : List Nat
  webseedDisabled : List String
  errorLog : List String
deriving DecidableEq, Repr

/-- Observable side effects of one handler run, in program order. -/
inductive HandlerAction where
  | logError (e : String)
  | addBytesDownloaded (n : Nat)
  | updateDownloadSpeed (n : Nat)
  | setWriting (index : Nat)
  | suspendPieceMessages
  | suspendWebseedResults
  | spawnWriter (index : Nat)
deriving DecidableEq, Repr

/-- A handler run either returns normally with the new state or panics
(Go panic aborts the coordinator goroutine and the process). -/
inductive HandlerOutcome where
  | ok (t : TorrentState)
  | panicked (msg : String)
deriving DecidableEq, Repr

/-- Embedding of (*torrent).handleWebseedPieceResult. Program order is
kept: on msg.Error the handler only logs and returns (the TODO branch);
otherwise it indexes t.pieces (out-of-range panics), adds the buffer
length to BytesDownloaded, updates the speed meter, panics if the piece
is already Writing, else marks it Writing, suspends the piece-message
and webseed-result channels and spawns the piece writer. -/
def handleWebseedPieceResult (t : TorrentState) (msg : WebseedPieceResult) :
    HandlerOutcome × List HandlerAction :=
  match msg.error with
  | some e =>
      (HandlerOutcome.ok { t with errorLog := t.errorLog ++ [e] }, [HandlerAction.logError e])
  | none =>
      if h : msg.index < t.pieces.length then
        let n := msg.bufferData.length
        let t1 := { t with
          bytesDownloaded := t.bytesDownloaded + n,
          speedUpdates := t.speedUpdates ++ [n] }
        let acts := [HandlerAction.addBytesDownloaded n, HandlerAction.updateDownloadSpeed n]
        if (t.pieces.get ⟨msg.index, h⟩).writing then
          (HandlerOutcome.panicked "piece is already writing", acts)
        else
          (HandlerOutcome.ok { t1 with
              pieces := t1.pieces.set msg.index { writing := true },
              pieceMessagesSuspended := true,
              webseedResultsSuspended := true,
              spawnedWriters := t1.spawnedWriters ++ [msg.index] },
           acts ++ [HandlerAction.setWriting msg.index, HandlerAction.suspendPieceMessages,
                    HandlerAction.suspendWebseedResults, HandlerAction.spawnWriter msg.index])
      else (HandlerOutcome.panicked "index out of range", [])

/-- Projection of a handler outcome to its returned state, when any. -/
def outcomeState : HandlerOutcome → Option TorrentState
  | HandlerOutcome.ok t => some t
  | HandlerOutcome.panicked _ => none

/-- Events the coordinator loop multiplexes, restricted to what the
analysed sources and the claims need. -/
inductive LoopEvent where
  | webseedResult (msg : WebseedPieceResult)
  | pieceMessage
  | writerResult (index : Nat)
  | other
deriving DecidableEq, Repr

/-- Recognizer for piece-writer completion events. -/
def isWriterResult : LoopEvent → Bool
  | LoopEvent.writerResult _ => true
  | _ => false

/-- Modelled from the spec: one coordinator-loop step. The
piece-writer-result handler is not among the analysed sources; per the
spec the loop resumes the suspended piece-message and webseed-result
intakes when the writer result arrives, and a suspended intake defers
delivery of its events. The peer-message handler is likewise outside
the sources and is modelled as leaving the embedded fields unchanged. -/
def loopStep (t : TorrentState) : LoopEvent → Option TorrentState
  | LoopEvent.writerResult _ =>
      some { t with pieceMessagesSuspended := false, webseedResultsSuspended := false }
  | LoopEvent.webseedResult msg =>
      if t.webseedResultsSuspended then some t
      else outcomeState (handleWebseedPieceResult t msg).1
  | LoopEvent.pieceMessage => some t
  | LoopEvent.other => some t

/-- Run the coordinator loop over a list of events; none means a panic
occurred. -/
def runLoop (t : TorrentState) : List LoopEvent → Option TorrentState
  | [] => some t
  | e :: es =>
      match loopStep t e with
      | none => none
      | some t1 => runLoop t1 es

/-- While both intakes are suspended, no event other than a
writer-result changes the suspension flags, so they stay suspended. -/
theorem runLoop_stays_suspended (evs : List LoopEvent) :
    ∀ t : TorrentState, t.pieceMessagesSuspended = true →
    t.webseedResultsSuspended = true →
    (∀ e ∈ evs, isWriterResult e = false) →
    ∀ t2, runLoop t evs = some t2 →
      t2.pieceMessagesSuspended = true ∧ t2.webseedResultsSuspended = true := by
  induction evs with
  | nil =>
      intro t h1 h2 _ t2 hrun
      simp [runLoop] at hrun
      subst hrun
      exact ⟨h1, h2⟩
  | cons e es ih =>
      intro t h1 h2 hno t2 hrun
      have hne : isWriterResult e = false := hno e (List.mem_cons_self e es)
      have hes : ∀ x ∈ es, isWriterResult x = false :=
        fun x hx => hno x (List.mem_cons_of_mem e hx)
      cases e with
      | writerResult i => simp [isWriterResult] at hne
      | webseedResult msg =>
          simp only [runLoop, loopStep, h2, if_true] at hrun
          exact ih t h1 h2 hes t2 hrun
      | pieceMessage =>
          simp only [runLoop, loopStep] at hrun
          exact ih t h1 h2 hes t2 hrun
      | other =>
          simp only [runLoop, loopStep] at hrun
          exact ih t h1 h2 hes t2 hrun

/-! ## Peer wire handshake (rain package) -/

/-- pstrlen constant of the BitTorrent 1.0 handshake (rain.go). -/
def bitTorrent10pstrLen : Nat := 19

/-- Byte values of the Go literal for the protocol string, that is the
19 ascii codes of the text BitTorrent protocol. -/
def bitTorrent10pstr : List Nat :=
  [66, 105, 116, 84, 111, 114, 114, 101, 110, 116, 32, 112, 114, 111, 116, 111, 99, 111, 108]

deriving instance DecidableEq for Except

/-- Result of readHandShake: the infoHash sent on the notify channel if
the parse got that far, the returned peer id or error, and how many
input bytes were consumed before returning. -/
structure HSParse where
  notified : Option (List Nat)
  result : Except String (List Nat)
  consumed : Nat
deriving DecidableEq, Repr

/-- io.ReadFull over a byte list: succeeds only when n bytes are
available, returning them and the rest. -/
def readN (n : Nat) (input : List Nat) : Option (List Nat × List Nat) :=
  if n ≤ input.length then some (input.take n, input.drop n) else none

/-- Embedding of (*Rain).readHandShake. It reads one byte and rejects a
pstrlen other than 19 before touching anything else; reads and compares
the 19-byte protocol string, rejecting on mismatch before touching
anything else; discards the 8 reserved bytes into ioutil.Discard; reads
the 20-byte infoHash and sends it on the notify channel; reads and
returns the 20-byte peer id. -/
def readHandShake (input : List Nat) : HSParse :=
  match input with
  | [] => ⟨none, Except.error "read error", 0⟩
  | pstrlen :: r1 =>
    if pstrlen = bitTorrent10pstrLen then
      match readN 19 r1 with
      | none => ⟨none, Except.error "read error", input.length⟩
      | some (pstr, r2) =>
        if pstr = bitTorrent10pstr then
          match readN 8 r2 with
          | none => ⟨none, Except.error "read error", input.length⟩
          | some (_, r3) =>
            match readN 20 r3 with
            | none => ⟨none, Except.error "read error", input.length⟩
            | some (ih, r4) =>
              match readN 20 r4 with
              | none => ⟨some ih, Except.error "read error", input.length⟩
              | some (pid, _) => ⟨some ih, Except.ok pid, 68⟩
        else ⟨none, Except.error "unexpected pstr", 20⟩
    else ⟨none, Except.error "unexpected pstrlen", 1⟩

/-- Embedding of (*Rain).sendHandShake: binary.Write of the handshake
struct emits, in field order, the pstrlen byte 19, the 19-byte protocol
string, the 8 zero-valued reserved bytes, the 20-byte infoHash and the
20-byte peer id. -/
def sendHandShake (ih pid : List Nat) : List Nat :=
  [bitTorrent10pstrLen] ++ bitTorrent10pstr ++ List.replicate 8 0 ++ ih ++ pid

/-- Operations a handler performs on the underlying net.Conn, in
program order. setDeadline none stands for clearing the deadline with
the zero time.Time. -/
inductive ConnOp where
  | setDeadline (secondsFromNow : Option Nat)
  | sendBytes (bs : List Nat)
  | close
deriving DecidableEq, Repr

/-- Recognizer for operations that set (rather than clear) a deadline. -/
def isDeadlineSet : ConnOp → Bool
  | ConnOp.setDeadline (some _) => true
  | _ => false

/-- Embedding of (*Rain).servePeerConn for an inbound connection, as
its trace of connection operations given the bytes the peer sends: a
60-second deadline is set first; the handshake reader runs
concurrently and the serving side answers with its own handshake as
soon as the infoHash arrives on the notify channel; the deadline is
cleared by communicateWithPeer only after the handshake succeeded; the
deferred Close always runs. -/
def servePeerConn (ownPeerID : List Nat) (input : List Nat) : List ConnOp :=
  let ops0 := [ConnOp.setDeadline (some 60)]
  let r := readHandShake input
  match r.notified with
  | some ih =>
      let ops1 := ops0 ++ [ConnOp.sendBytes (sendHandShake ih ownPeerID)]
      match r.result with
      | Except.error _ => ops1 ++ [ConnOp.close]
      | Except.ok _ => ops1 ++ [ConnOp.setDeadline none, ConnOp.close]
  | none => ops0 ++ [ConnOp.close]

/-- Outcome of an outbound connection attempt. -/
inductive ConnectOutcome where
  | dropped (reason : String)
  | communicating
deriving DecidableEq, Repr

/-- Boolean success test for an Except value. -/
def exceptOk {α : Type} : Except String α → Bool
  | Except.ok _ => true
  | Except.error _ => false

/-- Embedding of (*Rain).connectToPeer after a successful dial, given
the torrent infoHash, our peer id and the bytes the peer replies with:
send our handshake, read the peer handshake, abandon the connection on
a read error or when the echoed infoHash differs from the torrent
infoHash; only on equality proceed to communicateWithPeer, which
clears the deadline. The source sets no deadline and never closes the
socket in this function. -/
def connectToPeer (torrentIH ownPeerID reply : List Nat) :
    ConnectOutcome × List ConnOp :=
  let ops0 := [ConnOp.sendBytes (sendHandShake torrentIH ownPeerID)]
  let r := readHandShake reply
  match r.result with
  | Except.error e => (ConnectOutcome.dropped e, ops0)
  | Except.ok _ =>
    match r.notified with
    | none => (ConnectOutcome.dropped "no infohash", ops0)
    | some ih =>
      if ih = torrentIH then
        (ConnectOutcome.communicating, ops0 ++ [ConnOp.setDeadline none])
      else (ConnectOutcome.dropped "unexpected info_hash", ops0)

/-- readN on a list starting with exactly n bytes splits off those
bytes. -/
theorem readN_append (n : Nat) (l r : List Nat) (h : l.length = n) :
    readN n (l ++ r) = some (l, r) := by
  subst h
  simp [readN]

/-! ## Session add path (torrent package: session_add.go) -/

/-- The 64-character alphabet of base64.RawURLEncoding: the URL-safe
alphabet of RFC 4648 with minus and underscore in place of plus and
slash. -/
def base64URLAlphabet : List Char :=
  "ABCDEFGHIJKLMNOPQRSTUVWXYZabcdefghijklmnopqrstuvwxyz0123456789-_".data

/-- Character for a 6-bit group. -/
def b64Char (n : Nat) : Char := base64URLAlphabet.getD n 'A'

/-- base64.RawURLEncoding.EncodeToString over a byte list: standard
base64 grouping of three bytes into four characters, URL-safe alphabet,
and no padding characters for a trailing group of one or two bytes. -/
def base64RawURLEncode : List Nat → List Char
  | [] => []
  | [b1] => [b64Char (b1 / 4), b64Char (b1 % 4 * 16)]
  | [b1, b2] => [b64Char (b1 / 4), b64Char (b1 % 4 * 16 + b2 / 16), b64Char (b2 % 16 * 4)]
  | b1 :: b2 :: b3 :: rest =>
      b64Char (b1 / 4) :: b64Char (b1 % 4 * 16 + b2 / 16) ::
      b64Char (b2 % 16 * 4 + b3 / 64) :: b64Char (b3 % 64) ::
      base64RawURLEncode rest

/-- Modelled from the spec: uuid.NewV1 of the gofrs uuid library (an
external dependency, not among the analysed sources) returns an
RFC 4122 version-1 time-based UUID, 16 bytes laid out big-endian as
time_low (4 bytes), time_mid (2), time_hi_and_version (2, high nibble
is the version 1), clock_seq (2, variant bits 10), node (6). -/
def uuidNewV1 (time clockSeq : Nat) (node : List Nat) : List Nat :=
  let timeLow := time % 2 ^ 32
  let timeMid := time / 2 ^ 32 % 2 ^ 16
  let timeHi := time / 2 ^ 48 % 2 ^ 12
  [timeLow / 2 ^ 24 % 256, timeLow / 2 ^ 16 % 256, timeLow / 2 ^ 8 % 256, timeLow % 256,
   timeMid / 2 ^ 8 % 256, timeMid % 256,
   16 * 1 + timeHi / 2 ^ 8 % 16, timeHi % 256,
   128 + clockSeq / 2 ^ 8 % 64, clockSeq % 256,
   node.getD 0 0 % 256, node.getD 1 0 % 256, node.getD 2 0 % 256,
   node.getD 3 0 % 256, node.getD 4 0 % 256, node.getD 5 0 % 256]

/-- Version nibble of a 16-byte UUID. -/
def uuidVersion (u : List Nat) : Nat := u.getD 6 0 / 16

/-- Embedding of metainfo.Metainfo restricted to the fields
session_add.go reads. infoBytes stands for mi.Info.Bytes. -/
structure MetaInfo where
  infoHash : List Nat
  name : String
  announceList : List (List String)
  urlList : List String
  infoBytes : List Nat
deriving DecidableEq, Repr

/-- Embedding of magnet.Magnet restricted to the fields
session_add.go reads. -/
structure Magnet where
  infoHash : List Nat
  name : String
  trackers : List String
  peers : List String
deriving DecidableEq, Repr

/-- Embedding of boltdbresumer.Spec restricted to the fields the claims
concern: the resume key is paired with it in the session state, so only
identity and destination fields are carried; the remaining payload
fields (trackers, url list, raw info, fixed peers, added-at time) do
not bear on any claim. -/
structure RSpec where
  infoHash : List Nat
  dest : String
  port : Nat
  name : String
deriving DecidableEq, Repr

/-- Session configuration fields read by the add path. -/
structure SessionConfig where
  dataDir : String
  maxTorrentSize : Nat
deriving DecidableEq, Repr

/-- Session state touched by the add path: held listen ports, the
torrent registry keyed by id, the ids of torrents that have been
Closed, and the log of resume-store writes. -/
structure SessionState where
  ports : List Nat
  torrents : List String
  closed : List String
  resumerWrites : List (String × RSpec)
deriving DecidableEq, Repr

/-- Results of the fallible external collaborators consulted along one
add call, supplied as an oracle environment. -/
structure AddEnv where
  metainfoResult : Except String MetaInfo
  magnetResult : Except String Magnet
  portResult : Except String Nat
  uuidResult : Except String (List Nat)
  storageOk : Except String Unit
  newTorrentOk : Except String Unit
  resumerWriteOk : Except String Unit
  startOk : Except String Unit
deriving Repr

/-- s.releasePort returns a held port to the allocator. -/
def releasePort (st : SessionState) (p : Nat) : SessionState :=
  { st with ports := st.ports.erase p }

/-- Embedding of (*Session).add: acquire a port; on a UUID or storage
error the deferred function releases it; otherwise return the id (the
URL-safe unpadded base64 of the UUID bytes), the port and the
destination path DataDir/id handed to filestorage.New. -/
def sessionAdd (cfg : SessionConfig) (env : AddEnv) (st : SessionState) :
    SessionState × Except String (String × Nat × String) :=
  match env.portResult with
  | Except.error e => (st, Except.error e)
  | Except.ok port =>
    let st1 := { st with ports := st.ports ++ [port] }
    match env.uuidResult with
    | Except.error e => (releasePort st1 port, Except.error e)
    | Except.ok u =>
      let id := String.mk (base64RawURLEncode u)
      let dest := cfg.dataDir ++ "/" ++ id
      match env.storageOk with
      | Except.error e => (releasePort st1 port, Except.error e)
      | Except.ok _ => (st1, Except.ok (id, port, dest))

/-- Embedding of (*Session).addTorrentStopped: decode the metainfo,
call add, construct the torrent, write the resume spec under the id,
insert into the registry; each deferred cleanup (release the port,
close the torrent) fires exactly on the error paths where the source
registers it. The checkTorrent goroutine has no effect on the embedded
fields. -/
def addTorrentStopped (cfg : SessionConfig) (env : AddEnv) (st : SessionState) :
    SessionState × Except String String :=
  match env.metainfoResult with
  | Except.error e => (st, Except.error e)
  | Except.ok mi =>
    match sessionAdd cfg env st with
    | (st1, Except.error e) => (st1, Except.error e)
    | (st1, Except.ok (id, port, dest)) =>
      match env.newTorrentOk with
      | Except.error e => (releasePort st1 port, Except.error e)
      | Except.ok _ =>
        let rspec : RSpec :=
          { infoHash := mi.infoHash, dest := dest, port := port, name := mi.name }
        let st2 := { st1 with resumerWrites := st1.resumerWrites ++ [(id, rspec)] }
        match env.resumerWriteOk with
        | Except.error e =>
            (releasePort { st2 with closed := st2.closed ++ [id] } port, Except.error e)
        | Except.ok _ => ({ st2 with torrents := st2.torrents ++ [id] }, Except.ok id)

/-- Embedding of (*Session).addMagnet: parse the magnet link, call add,
construct the torrent, write the resume spec under the id, insert into
the registry, then Start unless the options say stopped. The deferred
cleanups test the named err, so a Start error also closes the torrent
and releases the port even though the torrent was already inserted. -/
def addMagnet (cfg : SessionConfig) (env : AddEnv) (stopped : Bool) (st : SessionState) :
    SessionState × Except String String :=
  match env.magnetResult with
  | Except.error e => (st, Except.error e)
  | Except.ok ma =>
    match sessionAdd cfg env st with
    | (st1, Except.error e) => (st1, Except.error e)
    | (st1, Except.ok (id, port, dest)) =>
      match env.newTorrentOk with
      | Except.error e => (releasePort st1 port, Except.error e)
      | Except.ok _ =>
        let rspec : RSpec :=
          { infoHash := ma.infoHash, dest := dest, port := port, name := ma.name }
        let st2 := { st1 with resumerWrites := st1.resumerWrites ++ [(id, rspec)] }
        match env.resumerWriteOk with
        | Except.error e =>
            (releasePort { st2 with closed := st2.closed ++ [id] } port, Except.error e)
        | Except.ok _ =>
          let st3 := { st2 with torrents := st2.torrents ++ [id] }
          if stopped then (st3, Except.ok id)
          else
            match env.startOk with
            | Except.error e =>
                (releasePort { st3 with closed := st3.closed ++ [id] } port, Except.error e)
            | Except.ok _ => (st3, Except.ok id)

/-! ## Concrete example values used by witnesses and counterexamples -/

/-- Torrent state with a single piece that is not being written. -/
def tEx : TorrentState :=
  { pieces := [{ writing := false }], bytesDownloaded := 0, speedUpdates := [],
    pieceMessagesSuspended := false, webseedResultsSuspended := false,
    spawnedWriters := [], webseedDisabled := [], errorLog := [] }

/-- Torrent state whose single piece is already being written. -/
def tWr : TorrentState := { tEx with pieces := [{ writing := true }] }

/-- Successful webseed result for piece 0 carrying one 16 KiB block. -/
def mEx : WebseedPieceResult :=
  { index := 0, error := none, bufferData := List.replicate 16384 0,
    url := "http://ws.example/f" }

/-- Failed webseed result for piece 0. -/
def mErr : WebseedPieceResult :=
  { index := 0, error := some "unexpected status code: 500", bufferData := [],
    url := "http://ws.example/f" }

/-! ## Claims C1 to C4: the webseed piece-result handler -/

/-- The state handleWebseedPieceResult returns on its success path,
written out as a single record update. -/
def handlerSuccessState (t : TorrentState) (msg : WebseedPieceResult) : TorrentState :=
  { t with
    pieces := t.pieces.set msg.index { writing := true },
    bytesDownloaded := t.bytesDownloaded + msg.bufferData.length,
    speedUpdates := t.speedUpdates ++ [msg.bufferData.length],
    pieceMessagesSuspended := true,
    webseedResultsSuspended := true,
    spawnedWriters := t.spawnedWriters ++ [msg.index] }

/-- Equation for the success path of the handler: no error, index in
range, piece not yet Writing. -/
theorem handleWebseed_success_eq (t : TorrentState) (msg : WebseedPieceResult)
    (hnoerr : msg.error = none) (hlt : msg.index < t.pieces.length)
    (hw : (t.pieces.get ⟨msg.index, hlt⟩).writing = false) :
    handleWebseedPieceResult t msg =
      (HandlerOutcome.ok (handlerSuccessState t msg),
       [HandlerAction.addBytesDownloaded msg.bufferData.length,
        HandlerAction.updateDownloadSpeed msg.bufferData.length,
        HandlerAction.setWriting msg.index, HandlerAction.suspendPieceMessages,
        HandlerAction.suspendWebseedResults, HandlerAction.spawnWriter msg.index]) := by
  have hw2 : t.pieces[msg.index].writing = false := hw
  simp [handleWebseedPieceResult, handlerSuccessState, hnoerr, hlt, hw2]

/-- Claim C1 counterexample: when a successful webseed result arrives
for a piece that is already in Writing state, the handler does not
discard the result and carry on; it panics, aborting the loop. -/
theorem c1_counterexample :
    (handleWebseedPieceResult tWr mEx).1 =
      HandlerOutcome.panicked "piece is already writing" := by
  decide

/-- Claim C1 (amended): when a successful webseed piece result arrives
while that piece is already in Writing state, the handler panics with
the message piece is already writing, aborting the coordinator loop,
after having already added the buffer length to BytesDownloaded and
updated the download speed meter; no second writer is started. -/
theorem c1_writing_result_panics (t : TorrentState) (msg : WebseedPieceResult)
    (hnoerr : msg.error = none) (hlt : msg.index < t.pieces.length)
    (hw : (t.pieces.get ⟨msg.index, hlt⟩).writing = true) :
    handleWebseedPieceResult t msg =
      (HandlerOutcome.panicked "piece is already writing",
       [HandlerAction.addBytesDownloaded msg.bufferData.length,
        HandlerAction.updateDownloadSpeed msg.bufferData.length]) := by
  have hw2 : t.pieces[msg.index].writing = true := hw
  simp [handleWebseedPieceResult, hnoerr, hlt, hw2]

/-- Claim C1 witness: the amended claim evaluated on the concrete
already-writing state. -/
theorem c1_witness :
    handleWebseedPieceResult tWr mEx =
      (HandlerOutcome.panicked "piece is already writing",
       [HandlerAction.addBytesDownloaded 16384,
        HandlerAction.updateDownloadSpeed 16384]) := by
  have hlen : mEx.bufferData.length = 16384 := List.length_replicate _ _
  have h := c1_writing_result_panics tWr mEx rfl (by decide) (by decide)
  rw [hlen] at h
  exact h

/-- Claim C2: a webseed piece result carrying an error is only logged:
the handler returns with every field except the error log unchanged, so
no webseed source enters backoff and the piece does not move back to
Missing. This is the TODO handle error branch of the source. -/
theorem c2_error_only_logged (t : TorrentState) (msg : WebseedPieceResult) (e : String)
    (herr : msg.error = some e) :
    handleWebseedPieceResult t msg =
      (HandlerOutcome.ok { t with errorLog := t.errorLog ++ [e] },
       [HandlerAction.logError e]) ∧
    (outcomeState (handleWebseedPieceResult t msg).1).map TorrentState.pieces =
      some t.pieces ∧
    (outcomeState (handleWebseedPieceResult t msg).1).map TorrentState.webseedDisabled =
      some t.webseedDisabled ∧
    (outcomeState (handleWebseedPieceResult t msg).1).map TorrentState.bytesDownloaded =
      some t.bytesDownloaded := by
  refine ⟨?_, ?_, ?_, ?_⟩ <;> simp [handleWebseedPieceResult, herr, outcomeState]

/-- Claim C2 witness: the failing input evaluated concretely; the
state is unchanged apart from the appended log line. -/
theorem c2_witness :
    handleWebseedPieceResult tEx mErr =
      (HandlerOutcome.ok { tEx with errorLog := ["unexpected status code: 500"] },
       [HandlerAction.logError "unexpected status code: 500"]) := by
  have h := (c2_error_only_logged tEx mErr "unexpected status code: 500" rfl).1
  simpa [tEx] using h

/-- Claim C3: a successful webseed result for a piece not already in
Writing state moves the piece to Writing, suspends the piece-message
and webseed-result intakes before spawning the piece writer (the
action trace lists both suspensions ahead of the spawn), and both
intakes remain suspended across any further events until a
piece-writer result arrives. -/
theorem c3_success_suspends_until_writer_done (t : TorrentState) (msg : WebseedPieceResult)
    (hnoerr : msg.error = none) (hlt : msg.index < t.pieces.length)
    (hw : (t.pieces.get ⟨msg.index, hlt⟩).writing = false) :
    ∃ t1, (handleWebseedPieceResult t msg).1 = HandlerOutcome.ok t1 ∧
      t1.pieces = t.pieces.set msg.index { writing := true } ∧
      t1.pieceMessagesSuspended = true ∧
      t1.webseedResultsSuspended = true ∧
      t1.spawnedWriters = t.spawnedWriters ++ [msg.index] ∧
      (handleWebseedPieceResult t msg).2 =
        [HandlerAction.addBytesDownloaded msg.bufferData.length,
         HandlerAction.updateDownloadSpeed msg.bufferData.length,
         HandlerAction.setWriting msg.index, HandlerAction.suspendPieceMessages,
         HandlerAction.suspendWebseedResults, HandlerAction.spawnWriter msg.index] ∧
      (∀ evs : List LoopEvent, (∀ e ∈ evs, isWriterResult e = false) →
        ∀ t2, runLoop t1 evs = some t2 →
          t2.pieceMessagesSuspended = true ∧ t2.webseedResultsSuspended = true) := by
  have heq := handleWebseed_success_eq t msg hnoerr hlt hw
  refine ⟨handlerSuccessState t msg, ?_, rfl, rfl, rfl, rfl, ?_, ?_⟩
  · rw [heq]
  · rw [heq]
  · intro evs hno t2 hrun
    exact runLoop_stays_suspended evs _ rfl rfl hno t2 hrun

/-- Claim C3 witness: on the concrete fresh state both intakes are
suspended after the handler runs. -/
theorem c3_witness :
    (outcomeState (handleWebseedPieceResult tEx mEx).1).map
        TorrentState.pieceMessagesSuspended = some true ∧
    (outcomeState (handleWebseedPieceResult tEx mEx).1).map
        TorrentState.webseedResultsSuspended = some true := by
  obtain ⟨t1, h1, _, h3, h4, _, _, _⟩ :=
    c3_success_suspends_until_writer_done tEx mEx rfl (by decide) (by decide)
  rw [h1]
  simp [outcomeState, h3, h4]

/-- Claim C4 counterexample: a successful webseed piece result bumps
bytesDownloaded by the buffer length at arrival, at the moment the
writer is merely spawned, before any hash verification has happened. -/
theorem c4_counterexample :
    tEx.bytesDownloaded = 0 ∧
    (outcomeState (handleWebseedPieceResult tEx mEx).1).map
        TorrentState.bytesDownloaded = some 16384 ∧
    (outcomeState (handleWebseedPieceResult tEx mEx).1).map
        TorrentState.spawnedWriters = some [0] := by
  have hlen : mEx.bufferData.length = 16384 := List.length_replicate _ _
  have heq := handleWebseed_success_eq tEx mEx rfl (by decide) (by decide)
  rw [heq]
  refine ⟨rfl, ?_, rfl⟩
  show some (handlerSuccessState tEx mEx).bytesDownloaded = some 16384
  rw [show (handlerSuccessState tEx mEx).bytesDownloaded
        = tEx.bytesDownloaded + mEx.bufferData.length from rfl, hlen]
  rfl

/-- Claim C4 (amended): in the webseed path bytesDownloaded is updated
when the piece result reaches the coordinator, before hash
verification: the handler adds the buffer length to bytesDownloaded in
the same step in which it spawns the still-unfinished piece writer. -/
theorem c4_bytes_counted_on_arrival (t : TorrentState) (msg : WebseedPieceResult)
    (hnoerr : msg.error = none) (hlt : msg.index < t.pieces.length)
    (hw : (t.pieces.get ⟨msg.index, hlt⟩).writing = false) :
    ∃ t1, (handleWebseedPieceResult t msg).1 = HandlerOutcome.ok t1 ∧
      t1.bytesDownloaded = t.bytesDownloaded + msg.bufferData.length ∧
      t1.spawnedWriters = t.spawnedWriters ++ [msg.index] := by
  have heq := handleWebseed_success_eq t msg hnoerr hlt hw
  refine ⟨handlerSuccessState t msg, ?_, rfl, rfl⟩
  rw [heq]

/-- Claim C4 witness: the amended claim evaluated on the concrete
fresh state. -/
theorem c4_witness :
    (outcomeState (handleWebseedPieceResult tEx mEx).1).map
        TorrentState.bytesDownloaded = some (0 + (16384 : Int)) := by
  have hlen : mEx.bufferData.length = 16384 := List.length_replicate _ _
  obtain ⟨t1, h1, h2, _⟩ :=
    c4_bytes_counted_on_arrival tEx mEx rfl (by decide) (by decide)
  rw [h1]
  show some t1.bytesDownloaded = some (0 + (16384 : Int))
  rw [h2, hlen]
  rfl

/-! ## Claims C5 to C8: the peer wire handshake -/

/-- Taking exactly the length of the first list of an append yields it. -/
theorem take_append_exact {α : Type} (l r : List α) (n : Nat) (h : l.length = n) :
    (l ++ r).take n = l := by
  subst h
  simp

/-- Dropping exactly the length of the first list of an append yields
the second. -/
theorem drop_append_exact {α : Type} (l r : List α) (n : Nat) (h : l.length = n) :
    (l ++ r).drop n = r := by
  subst h
  simp

/-- A well-formed handshake parses to its infoHash and peer id with all
68 bytes consumed, whatever the 8 reserved bytes hold. -/
theorem readHandShake_wellformed (res ih pid : List Nat)
    (hres : res.length = 8) (hih : ih.length = 20) (hpid : pid.length = 20) :
    readHandShake (19 :: (bitTorrent10pstr ++ (res ++ (ih ++ pid)))) =
      ⟨some ih, Except.ok pid, 68⟩ := by
  have h1 : readN 19 (bitTorrent10pstr ++ (res ++ (ih ++ pid)))
      = some (bitTorrent10pstr, res ++ (ih ++ pid)) :=
    readN_append _ _ _ (by decide)
  have h2 : readN 8 (res ++ (ih ++ pid)) = some (res, ih ++ pid) :=
    readN_append _ _ _ hres
  have h3 : readN 20 (ih ++ pid) = some (ih, pid) := readN_append _ _ _ hih
  have h4 : readN 20 pid = some (pid, []) := by
    have h5 := readN_append 20 pid [] hpid
    simpa using h5
  simp [readHandShake, bitTorrent10pstrLen, h1, h2, h3, h4]

/-- Concrete 20-byte infoHash used by witnesses. -/
def ih0 : List Nat := List.replicate 20 1

/-- A different concrete 20-byte infoHash. -/
def ihB : List Nat := List.replicate 20 9

/-- Concrete 20-byte peer id used by witnesses. -/
def pid0 : List Nat := List.replicate 20 2

/-- A well-formed handshake reply carrying infoHash ih0 and peer id
pid0, with all reserved bytes zero. -/
def replyGood : List Nat :=
  19 :: (bitTorrent10pstr ++ (List.replicate 8 0 ++ (ih0 ++ pid0)))

/-- Claim C5 counterexample: a complete outbound handshake runs to the
communicating stage without any deadline ever being set on the
connection, so no 60-second drop can occur for outbound connections. -/
theorem c5_counterexample :
    (connectToPeer ih0 pid0 replyGood).1 = ConnectOutcome.communicating ∧
    (connectToPeer ih0 pid0 replyGood).2.filter isDeadlineSet = [] := by
  decide

/-- Claim C5 (amended): only inbound connections are covered by the
60-second handshake deadline: servePeerConn sets a 60-second deadline
as its very first connection operation, while connectToPeer never sets
a deadline at all (its only deadline operation is the clear performed
by communicateWithPeer after the handshake has completed). -/
theorem c5_deadline_inbound_only (ownPeerID input torrentIH reply : List Nat) :
    (servePeerConn ownPeerID input).head? = some (ConnOp.setDeadline (some 60)) ∧
    (connectToPeer torrentIH ownPeerID reply).2.filter isDeadlineSet = [] := by
  constructor
  · cases hno : (readHandShake input).notified with
    | none => simp [servePeerConn, hno]
    | some ih =>
        cases hres : (readHandShake input).result with
        | error e => simp [servePeerConn, hno, hres]
        | ok x => simp [servePeerConn, hno, hres]
  · cases hres : (readHandShake reply).result with
    | error e => simp [connectToPeer, hres, isDeadlineSet]
    | ok x =>
        cases hno : (readHandShake reply).notified with
        | none => simp [connectToPeer, hres, hno, isDeadlineSet]
        | some ih =>
            by_cases hih : ih = torrentIH <;>
              simp [connectToPeer, hres, hno, hih, isDeadlineSet]

/-- Claim C6: the sent handshake is exactly the byte 19, the 19 ascii
bytes of the protocol string, 8 zero reserved bytes, the 20-byte
infoHash and the 20-byte peer id, in that order (witnessed by its
length, its slices at those offsets, and by the reader round-trip);
and the reader rejects a pstrlen other than 19 after consuming exactly
one byte, and a wrong protocol string after consuming exactly twenty,
processing no further bytes of the handshake in either case. -/
theorem c6_handshake_wire (ih pid : List Nat)
    (hih : ih.length = 20) (hpid : pid.length = 20) :
    (sendHandShake ih pid).length = 68 ∧
    (sendHandShake ih pid).take 1 = [19] ∧
    ((sendHandShake ih pid).drop 1).take 19 = bitTorrent10pstr ∧
    ((sendHandShake ih pid).drop 20).take 8 = List.replicate 8 0 ∧
    ((sendHandShake ih pid).drop 28).take 20 = ih ∧
    (sendHandShake ih pid).drop 48 = pid ∧
    readHandShake (sendHandShake ih pid) = ⟨some ih, Except.ok pid, 68⟩ ∧
    (∀ b rest, b ≠ 19 →
      readHandShake (b :: rest) = ⟨none, Except.error "unexpected pstrlen", 1⟩) ∧
    (∀ p rest, p.length = 19 → p ≠ bitTorrent10pstr →
      readHandShake ((19 : Nat) :: (p ++ rest)) =
        ⟨none, Except.error "unexpected pstr", 20⟩) := by
  have hpstr : bitTorrent10pstr.length = 19 := by decide
  have hsend : sendHandShake ih pid =
      19 :: (bitTorrent10pstr ++ (List.replicate 8 0 ++ (ih ++ pid))) := by
    simp [sendHandShake, bitTorrent10pstrLen]
  refine ⟨?_, ?_, ?_, ?_, ?_, ?_, ?_, ?_, ?_⟩
  · simp [hsend, hih, hpid, hpstr]
  · simp [hsend]
  · rw [hsend]
    simp only [List.drop_succ_cons, List.drop_zero]
    exact take_append_exact _ _ _ hpstr
  · have hsend2 : sendHandShake ih pid =
        (19 :: bitTorrent10pstr) ++ (List.replicate 8 0 ++ (ih ++ pid)) := by
      simp [sendHandShake, bitTorrent10pstrLen]
    rw [hsend2, drop_append_exact _ _ 20 (by decide)]
    exact take_append_exact _ _ _ (List.length_replicate _ _)
  · have hsend3 : sendHandShake ih pid =
        ((19 :: bitTorrent10pstr) ++ List.replicate 8 0) ++ (ih ++ pid) := by
      simp [sendHandShake, bitTorrent10pstrLen]
    rw [hsend3, drop_append_exact _ _ 28 (by decide)]
    exact take_append_exact _ _ _ hih
  · have hsend4 : sendHandShake ih pid =
        (((19 :: bitTorrent10pstr) ++ List.replicate 8 0) ++ ih) ++ pid := by
      simp [sendHandShake, bitTorrent10pstrLen]
    rw [hsend4, drop_append_exact _ _ 48 (by simp [hih, hpstr])]
  · rw [hsend]
    exact readHandShake_wellformed _ ih pid (List.length_replicate _ _) hih hpid
  · intro b rest hb
    simp [readHandShake, bitTorrent10pstrLen, hb]
  · intro p rest hp hne
    have h1 : readN 19 (p ++ rest) = some (p, rest) := readN_append _ _ _ hp
    simp [readHandShake, bitTorrent10pstrLen, h1, hne]

/-- Claim C6 witness: the round-trip evaluated at concrete infoHash and
peer id. -/
theorem c6_witness :
    readHandShake (sendHandShake ih0 pid0) = ⟨some ih0, Except.ok pid0, 68⟩ :=
  (c6_handshake_wire ih0 pid0 (by decide) (by decide)).2.2.2.2.2.2.1

/-- Claim C7: after an outbound dial, the client reaches post-handshake
communication exactly when the peer handshake parses successfully and
echoes the torrent infoHash; a successfully parsed handshake whose
infoHash differs is dropped with the unexpected info_hash error. -/
theorem c7_infohash_gate (torrentIH ownPeerID reply : List Nat) :
    ((connectToPeer torrentIH ownPeerID reply).1 = ConnectOutcome.communicating ↔
      exceptOk (readHandShake reply).result = true ∧
      (readHandShake reply).notified = some torrentIH) ∧
    (∀ ih, (readHandShake reply).notified = some ih →
      exceptOk (readHandShake reply).result = true → ih ≠ torrentIH →
      (connectToPeer torrentIH ownPeerID reply).1 =
        ConnectOutcome.dropped "unexpected info_hash") := by
  constructor
  · cases hres : (readHandShake reply).result with
    | error e => simp [connectToPeer, hres, exceptOk]
    | ok x =>
        cases hno : (readHandShake reply).notified with
        | none => simp [connectToPeer, hres, hno, exceptOk]
        | some ih =>
            by_cases hih : ih = torrentIH <;>
              simp [connectToPeer, hres, hno, hih, exceptOk]
  · intro ih hno hok hne
    cases hres : (readHandShake reply).result with
    | error e => simp [hres, exceptOk] at hok
    | ok x => simp [connectToPeer, hres, hno, hne, exceptOk]

/-- Claim C7 witness: a successfully parsed reply carrying infoHash ih0
is dropped when the torrent expects ihB. -/
theorem c7_witness :
    (connectToPeer ihB pid0 replyGood).1 =
      ConnectOutcome.dropped "unexpected info_hash" :=
  (c7_infohash_gate ihB pid0 replyGood).2 ih0 (by decide) (by decide) (by decide)

/-- Claim C8 counterexample: the parse result is byte-for-byte
identical whether the fast-extension and extension-protocol reserved
bits are set or all reserved bytes are zero, and it succeeds; nothing
about the reserved bits is recognized or recorded anywhere in the
result. -/
theorem c8_counterexample :
    readHandShake (19 :: (bitTorrent10pstr ++ ([0, 0, 0, 0, 0, 16, 0, 1] ++ (ih0 ++ pid0)))) =
      readHandShake (19 :: (bitTorrent10pstr ++ (List.replicate 8 0 ++ (ih0 ++ pid0)))) ∧
    (readHandShake (19 :: (bitTorrent10pstr ++ ([0, 0, 0, 0, 0, 16, 0, 1] ++ (ih0 ++ pid0))))).result =
      Except.ok pid0 := by
  decide

/-- Claim C8 (amended): readHandShake reads the 8 reserved bytes and
discards them: for any values of the reserved bytes the parse result is
the same and the handshake succeeds, so no reserved bit (the
fast-extension and extension-protocol bits included) is recognized or
recorded, and no reserved bit causes the handshake to fail. -/
theorem c8_reserved_discarded (res ih pid : List Nat)
    (hres : res.length = 8) (hih : ih.length = 20) (hpid : pid.length = 20) :
    readHandShake (19 :: (bitTorrent10pstr ++ (res ++ (ih ++ pid)))) =
      ⟨some ih, Except.ok pid, 68⟩ :=
  readHandShake_wellformed res ih pid hres hih hpid

/-- Claim C8 witness: the amended claim evaluated with both known
reserved bits set. -/
theorem c8_witness :
    readHandShake (19 :: (bitTorrent10pstr ++ ([0, 0, 0, 0, 0, 16, 0, 1] ++ (ih0 ++ pid0)))) =
      ⟨some ih0, Except.ok pid0, 68⟩ :=
  c8_reserved_discarded [0, 0, 0, 0, 0, 16, 0, 1] ih0 pid0 (by decide) (by decide) (by decide)

/-! ## Claims C9 and C10: the session add path -/

/-- Every character the encoder can emit is in the URL-safe alphabet
(out-of-range 6-bit values fall back to the getD default, which is
itself in the alphabet). -/
theorem b64Char_mem (n : Nat) : b64Char n ∈ base64URLAlphabet := by
  rcases Nat.lt_or_ge n 64 with h | h
  · have hall : ∀ m, m < 64 → base64URLAlphabet.getD m 'A' ∈ base64URLAlphabet := by decide
    exact hall n h
  · have hlen : base64URLAlphabet.length ≤ n := by
      have h64 : base64URLAlphabet.length = 64 := by decide
      omega
    have hA : b64Char n = 'A' := by
      show base64URLAlphabet.getD n 'A' = 'A'
      exact List.getD_eq_default _ _ hlen
    rw [hA]
    decide

/-- All characters of an encoding lie in the URL-safe alphabet. -/
theorem base64_chars_mem :
    ∀ (l : List Nat), ∀ c ∈ base64RawURLEncode l, c ∈ base64URLAlphabet
  | [] => by simp [base64RawURLEncode]
  | [b1] => by
      intro c hc
      simp only [base64RawURLEncode, List.mem_cons, List.not_mem_nil, or_false] at hc
      rcases hc with h | h <;> (subst h; exact b64Char_mem _)
  | [b1, b2] => by
      intro c hc
      simp only [base64RawURLEncode, List.mem_cons, List.not_mem_nil, or_false] at hc
      rcases hc with h | h | h <;> (subst h; exact b64Char_mem _)
  | b1 :: b2 :: b3 :: b4 :: rest => by
      intro c hc
      simp only [base64RawURLEncode, List.mem_cons] at hc
      rcases hc with h | h | h | h | h
      · subst h; exact b64Char_mem _
      · subst h; exact b64Char_mem _
      · subst h; exact b64Char_mem _
      · subst h; exact b64Char_mem _
      · exact base64_chars_mem (b4 :: rest) c h
  | [b1, b2, b3] => by
      intro c hc
      simp only [base64RawURLEncode, List.mem_cons, List.not_mem_nil, or_false] at hc
      rcases hc with h | h | h | h
      · subst h; exact b64Char_mem _
      · subst h; exact b64Char_mem _
      · subst h; exact b64Char_mem _
      · subst h; exact b64Char_mem _

/-- Length of an unpadded base64 encoding. -/
theorem base64_length :
    ∀ (l : List Nat), (base64RawURLEncode l).length = (4 * l.length + 2) / 3
  | [] => by simp [base64RawURLEncode]
  | [b1] => by simp [base64RawURLEncode]
  | [b1, b2] => by simp [base64RawURLEncode]
  | [b1, b2, b3] => by simp [base64RawURLEncode]
  | b1 :: b2 :: b3 :: b4 :: rest => by
      simp only [base64RawURLEncode, List.length_cons,
        base64_length (b4 :: rest)]
      omega

/-- Erasing a fresh element appended at the end restores the list. -/
theorem erase_append_self (ps : List Nat) (p : Nat) (h : p ∉ ps) :
    (ps ++ [p]).erase p = ps := by
  induction ps with
  | nil => simp
  | cons a as ih =>
      have hne : p ≠ a := fun hpa => h (hpa ▸ List.mem_cons_self a as)
      have hnotin : p ∉ as := fun hin => h (List.mem_cons_of_mem a hin)
      have hba : (a == p) = false := by
        simp
        exact fun hax => hne hax.symm
      simp [List.erase_cons, hba, ih hnotin]

/-- Claim C9: on a successful AddTorrent, the torrent id is the
URL-safe unpadded base64 encoding of a freshly generated version-1
(time-ordered) UUID: it is 22 characters long, uses only the URL-safe
alphabet with no padding character, it is the key written to the
resume store, and the destination directory recorded for the torrent
is that same id under the session data dir; the same id keys the
registry entry. -/
theorem c9_torrent_id (cfg : SessionConfig) (env : AddEnv) (st : SessionState)
    (mi : MetaInfo) (port time cs : Nat) (node : List Nat)
    (hmi : env.metainfoResult = Except.ok mi)
    (hport : env.portResult = Except.ok port)
    (huuid : env.uuidResult = Except.ok (uuidNewV1 time cs node))
    (hsto : env.storageOk = Except.ok ())
    (hnt : env.newTorrentOk = Except.ok ())
    (hrw : env.resumerWriteOk = Except.ok ()) :
    uuidVersion (uuidNewV1 time cs node) = 1 ∧
    (addTorrentStopped cfg env st).2 =
      Except.ok (String.mk (base64RawURLEncode (uuidNewV1 time cs node))) ∧
    (String.mk (base64RawURLEncode (uuidNewV1 time cs node))).length = 22 ∧
    (∀ c ∈ base64RawURLEncode (uuidNewV1 time cs node), c ∈ base64URLAlphabet) ∧
    '=' ∉ base64RawURLEncode (uuidNewV1 time cs node) ∧
    '+' ∉ base64RawURLEncode (uuidNewV1 time cs node) ∧
    '/' ∉ base64RawURLEncode (uuidNewV1 time cs node) ∧
    (addTorrentStopped cfg env st).1.resumerWrites =
      st.resumerWrites ++
        [(String.mk (base64RawURLEncode (uuidNewV1 time cs node)),
          { infoHash := mi.infoHash,
            dest := cfg.dataDir ++ "/" ++
              String.mk (base64RawURLEncode (uuidNewV1 time cs node)),
            port := port, name := mi.name })] ∧
    (addTorrentStopped cfg env st).1.torrents =
      st.torrents ++ [String.mk (base64RawURLEncode (uuidNewV1 time cs node))] := by
  have key : ∀ x : Nat, (16 * 1 + x % 16) / 16 = 1 := fun x => by omega
  have hul : (uuidNewV1 time cs node).length = 16 := rfl
  have hlen : (base64RawURLEncode (uuidNewV1 time cs node)).length = 22 := by
    rw [base64_length, hul]
  refine ⟨?_, ?_, ?_, ?_, ?_, ?_, ?_, ?_, ?_⟩
  · show (16 * 1 + time / 2 ^ 48 % 2 ^ 12 / 2 ^ 8 % 16) / 16 = 1
    exact key _
  · simp [addTorrentStopped, sessionAdd, hmi, hport, huuid, hsto, hnt, hrw]
  · exact hlen
  · exact fun c hc => base64_chars_mem _ c hc
  · exact fun h => absurd (base64_chars_mem _ _ h) (by decide)
  · exact fun h => absurd (base64_chars_mem _ _ h) (by decide)
  · exact fun h => absurd (base64_chars_mem _ _ h) (by decide)
  · simp [addTorrentStopped, sessionAdd, hmi, hport, huuid, hsto, hnt, hrw]
  · simp [addTorrentStopped, sessionAdd, hmi, hport, huuid, hsto, hnt, hrw]

/-- Concrete session configuration for witnesses. -/
def cfg0 : SessionConfig := { dataDir := "/data", maxTorrentSize := 10485760 }

/-- Concrete decoded metainfo for witnesses. -/
def miEx : MetaInfo :=
  { infoHash := List.replicate 20 7, name := "ubuntu.iso",
    announceList := [["http://tr.example/announce"]], urlList := [], infoBytes := [] }

/-- Empty session state for witnesses. -/
def stEmpty : SessionState :=
  { ports := [], torrents := [], closed := [], resumerWrites := [] }

/-- Environment where every collaborator succeeds. -/
def envOK : AddEnv :=
  { metainfoResult := Except.ok miEx,
    magnetResult := Except.error "not a magnet",
    portResult := Except.ok 50000,
    uuidResult := Except.ok (uuidNewV1 123456789 33 [1, 2, 3, 4, 5, 6]),
    storageOk := Except.ok (),
    newTorrentOk := Except.ok (),
    resumerWriteOk := Except.ok (),
    startOk := Except.ok () }

/-- Claim C9 witness: the id facts evaluated on a concrete successful
add. -/
theorem c9_witness :
    uuidVersion (uuidNewV1 123456789 33 [1, 2, 3, 4, 5, 6]) = 1 ∧
    (addTorrentStopped cfg0 envOK stEmpty).2 =
      Except.ok (String.mk (base64RawURLEncode (uuidNewV1 123456789 33 [1, 2, 3, 4, 5, 6]))) ∧
    (String.mk (base64RawURLEncode (uuidNewV1 123456789 33 [1, 2, 3, 4, 5, 6]))).length = 22 := by
  have h := c9_torrent_id cfg0 envOK stEmpty miEx 50000 123456789 33 [1, 2, 3, 4, 5, 6]
    rfl rfl rfl rfl rfl rfl
  exact ⟨h.1, h.2.1, h.2.2.1⟩

/-- Claim C10: when adding a torrent by metainfo or magnet fails after
a listen port was acquired (magnet or metainfo parse error happens
before acquisition and changes nothing; UUID, storage creation,
torrent construction and resume-write errors happen after), the port
is back with the allocator, the registry has not grown, and a torrent
that had already been constructed has been Closed. For the magnet
path the statement assumes Start itself succeeds, since a Start
failure happens only after the torrent was deliberately inserted. -/
theorem c10_add_error_cleanup (cfg : SessionConfig) (env : AddEnv) (st : SessionState)
    (stopped : Bool)
    (hfresh : ∀ p, env.portResult = Except.ok p → p ∉ st.ports) :
    (∀ e, (addTorrentStopped cfg env st).2 = Except.error e →
      (addTorrentStopped cfg env st).1.ports = st.ports ∧
      (addTorrentStopped cfg env st).1.torrents = st.torrents) ∧
    (∀ e mi u port, env.metainfoResult = Except.ok mi →
      env.portResult = Except.ok port → env.uuidResult = Except.ok u →
      env.storageOk = Except.ok () → env.newTorrentOk = Except.ok () →
      env.resumerWriteOk = Except.error e →
      String.mk (base64RawURLEncode u) ∈ (addTorrentStopped cfg env st).1.closed) ∧
    (env.startOk = Except.ok () →
      ∀ e, (addMagnet cfg env stopped st).2 = Except.error e →
        (addMagnet cfg env stopped st).1.ports = st.ports ∧
        (addMagnet cfg env stopped st).1.torrents = st.torrents) ∧
    (∀ e ma u port, env.magnetResult = Except.ok ma →
      env.portResult = Except.ok port → env.uuidResult = Except.ok u →
      env.storageOk = Except.ok () → env.newTorrentOk = Except.ok () →
      env.resumerWriteOk = Except.error e →
      String.mk (base64RawURLEncode u) ∈ (addMagnet cfg env stopped st).1.closed) := by
  refine ⟨?_, ?_, ?_, ?_⟩
  · intro e he
    cases hmi : env.metainfoResult with
    | error e2 => constructor <;> simp [addTorrentStopped, hmi]
    | ok mi =>
      cases hport : env.portResult with
      | error e2 => constructor <;> simp [addTorrentStopped, sessionAdd, hmi, hport]
      | ok p =>
        have hp : p ∉ st.ports := hfresh p hport
        cases huuid : env.uuidResult with
        | error e2 =>
            constructor <;>
              simp [addTorrentStopped, sessionAdd, releasePort, hmi, hport, huuid,
                    erase_append_self _ _ hp]
        | ok u =>
          cases hsto : env.storageOk with
          | error e2 =>
              constructor <;>
                simp [addTorrentStopped, sessionAdd, releasePort, hmi, hport, huuid,
                      hsto, erase_append_self _ _ hp]
          | ok u2 =>
            cases hnt : env.newTorrentOk with
            | error e2 =>
                constructor <;>
                  simp [addTorrentStopped, sessionAdd, releasePort, hmi, hport, huuid,
                        hsto, hnt, erase_append_self _ _ hp]
            | ok u3 =>
              cases hrw : env.resumerWriteOk with
              | error e2 =>
                  constructor <;>
                    simp [addTorrentStopped, sessionAdd, releasePort, hmi, hport, huuid,
                          hsto, hnt, hrw, erase_append_self _ _ hp]
              | ok u4 =>
                  simp [addTorrentStopped, sessionAdd, hmi, hport, huuid, hsto,
                        hnt, hrw] at he
  · intro e mi u port hmi hport huuid hsto hnt hrw
    simp [addTorrentStopped, sessionAdd, releasePort, hmi, hport, huuid, hsto, hnt, hrw]
  · intro hstart e he
    cases hma : env.magnetResult with
    | error e2 => constructor <;> simp [addMagnet, hma]
    | ok ma =>
      cases hport : env.portResult with
      | error e2 => constructor <;> simp [addMagnet, sessionAdd, hma, hport]
      | ok p =>
        have hp : p ∉ st.ports := hfresh p hport
        cases huuid : env.uuidResult with
        | error e2 =>
            constructor <;>
              simp [addMagnet, sessionAdd, releasePort, hma, hport, huuid,
                    erase_append_self _ _ hp]
        | ok u =>
          cases hsto : env.storageOk with
          | error e2 =>
              constructor <;>
                simp [addMagnet, sessionAdd, releasePort, hma, hport, huuid,
                      hsto, erase_append_self _ _ hp]
          | ok u2 =>
            cases hnt : env.newTorrentOk with
            | error e2 =>
                constructor <;>
                  simp [addMagnet, sessionAdd, releasePort, hma, hport, huuid,
                        hsto, hnt, erase_append_self _ _ hp]
            | ok u3 =>
              cases hrw : env.resumerWriteOk with
              | error e2 =>
                  constructor <;>
                    simp [addMagnet, sessionAdd, releasePort, hma, hport, huuid,
                          hsto, hnt, hrw, erase_append_self _ _ hp]
              | ok u4 =>
                  cases stopped with
                  | true =>
                      simp [addMagnet, sessionAdd, hma, hport, huuid, hsto,
                            hnt, hrw] at he
                  | false =>
                      simp [addMagnet, sessionAdd, hma, hport, huuid, hsto,
                            hnt, hrw, hstart] at he
  · intro e ma u port hma hport huuid hsto hnt hrw
    cases stopped <;>
      simp [addMagnet, sessionAdd, releasePort, hma, hport, huuid, hsto, hnt, hrw]

/-- Environment where only the resume-store write fails. -/
def envRWFail : AddEnv :=
  { metainfoResult := Except.ok miEx,
    magnetResult := Except.error "not a magnet",
    portResult := Except.ok 50000,
    uuidResult := Except.ok (uuidNewV1 123456789 33 [1, 2, 3, 4, 5, 6]),
    storageOk := Except.ok (),
    newTorrentOk := Except.ok (),
    resumerWriteOk := Except.error "db closed",
    startOk := Except.ok () }

/-- Claim C10 witness: on a concrete resume-write failure the port is
released, the registry is unchanged and the constructed torrent was
closed. -/
theorem c10_witness :
    (addTorrentStopped cfg0 envRWFail stEmpty).1.ports = stEmpty.ports ∧
    (addTorrentStopped cfg0 envRWFail stEmpty).1.torrents = stEmpty.torrents ∧
    String.mk (base64RawURLEncode (uuidNewV1 123456789 33 [1, 2, 3, 4, 5, 6]))
      ∈ (addTorrentStopped cfg0 envRWFail stEmpty).1.closed := by
  have h := c10_add_error_cleanup cfg0 envRWFail stEmpty false
    (fun p hp => by simp [stEmpty])
  have h1 := h.1 "db closed" (by decide)
  have h2 := h.2.1 "db closed" miEx (uuidNewV1 123456789 33 [1, 2, 3, 4, 5, 6]) 50000
    rfl rfl rfl rfl rfl rfl
  exact ⟨h1.1, h1.2, h2⟩
